import Mathlib

/-!
# Attendance management system: the request handlers of `go-app/main.go`

A shallow embedding of `dbConn`, `Index`, `WorkItemCreate`, `WorkItemEdit` and
`WorkItemUpdate`.  Everything the handlers call outside the source file (the
process environment, the pgx / cloudsqlconn / database-sql calls, the template
loader and the database behind the SQL text) is collected in `World`; the handlers
themselves are translated statement by statement.
-/

namespace Attendance

/-! ## Data model -/

/-- A `time.Time` value as the driver scans it: its civil fields in the
location of the value.  `Day` is the day of the month. -/
structure Time where
  year : Int
  month : Int
  day : Int
  hour : Int
  minute : Int
  second : Int
  nanosecond : Int
deriving DecidableEq

/-- The zero `time.Time`: January 1 of year 1, 00:00:00. -/
def Time.zero : Time := ⟨1, 1, 1, 0, 0, 0, 0⟩

/-- The method `Time.Day()`. -/
def Time.Day (t : Time) : Int := t.day

/-- Strict chronological order on civil fields, the order of `ORDER BY workdatetime`. -/
def Time.before (a b : Time) : Bool :=
  decide (a.year < b.year) || (decide (a.year = b.year) &&
  (decide (a.month < b.month) || (decide (a.month = b.month) &&
  (decide (a.day < b.day) || (decide (a.day = b.day) &&
  (decide (a.hour < b.hour) || (decide (a.hour = b.hour) &&
  (decide (a.minute < b.minute) || (decide (a.minute = b.minute) &&
  (decide (a.second < b.second) || (decide (a.second = b.second) &&
  decide (a.nanosecond < b.nanosecond))))))))))))

/-- The struct `WorkItem` (lines 23-28). -/
structure WorkItem where
  Id : Int
  UserId : Int
  WorkdateTime : Time
  TimeType : String
deriving DecidableEq

/-- The value of `WorkItem{}`. -/
def WorkItem.zero : WorkItem := ⟨0, 0, Time.zero, ""⟩

/-- The struct `IndexData` (lines 102-106), the key of `MapRecords`. -/
structure IndexData where
  User : Int
  Day : Int
  Timetype : String
deriving DecidableEq

/-- A Go `map[K]V`: a partial function on keys. -/
def GoMap (κ ν : Type) := κ → Option ν

/-- The result of `make(map[K]V)`. -/
def GoMap.empty {κ ν : Type} : GoMap κ ν := fun _ => none

/-- The assignment `m[k] = v`. -/
def GoMap.set {κ ν : Type} [DecidableEq κ] (m : GoMap κ ν) (k : κ) (v : ν) : GoMap κ ν :=
  fun k2 => if k2 = k then some v else m k2

/-! ## The environment of the handlers -/

/-- The options `dbConn` can append to `opts`. -/
inductive DialerOption where
  | WithIAMAuthN
  | WithPrivateIP
deriving DecidableEq

/-- What a returned pool was built from: the DSN handed to `pgx.ParseConfig`,
the dialer options and the instance the `DialFunc` dials. -/
structure ConnSetup where
  dsn : String
  opts : List DialerOption
  instanceConnectionName : String
deriving DecidableEq

/-- Everything outside `main.go` that the handlers consult.  An `Option String`
is the `error` a call returns (`none` for `nil`). -/
structure World where
  /-- The function `os.Getenv`; an unset variable reads as the empty string. -/
  env : String → String
  /-- The error of `pgx.ParseConfig(dsn)`. -/
  parseConfig : String → Option String
  /-- The error of `cloudsqlconn.NewDialer(ctx, opts...)`. -/
  newDialer : List DialerOption → Option String
  /-- The error of `sql.Open("pgx", dbURI)`. -/
  sqlOpen : Option String
  /-- The error of `template.ParseFiles(path)`. -/
  parseFiles : String → Option String
  /-- The error of `db.Prepare(sql)` on a non-nil pool. -/
  prepare : String → Option String
  /-- The error of `db.Query(sql, ...)` raised before any conversion of arguments. -/
  query : String → Option String
  /-- An error of `stmt.Exec` unrelated to the submitted values. -/
  exec : Option String
  /-- The error of `rows.Scan` on a stored row. -/
  scan : WorkItem → Option String
  /-- The value of `rows.Err()` after the loop of `Index`. -/
  rowsErr : Option String
  /-- The conversion the database applies to a text argument compared with `id`. -/
  toInt : String → Option Int
  /-- The conversion the database applies to a text argument stored in `workdatetime`. -/
  toTimestamp : String → Option Time
  /-- Whether the column `userid` can hold the integer. -/
  intFits : Int → Bool
  /-- The `id` the storage assigns to the next inserted row. -/
  freshId : List WorkItem → Int

/-- An incoming `*http.Request`: the method, `r.FormValue` and `r.URL.Query().Get`. -/
structure Request where
  Method : String
  FormValue : String → String
  QueryGet : String → String

/-! ## `dbConn` (lines 46-100) -/

/-- How a call of `dbConn` ends. -/
inductive ConnResult where
  /-- The call `log.Fatal` / `log.Fatalf`: the message is logged and the process exits. -/
  | fatal (msg : String)
  /-- The pair `fmt.Print(err); return nil`: the caller receives a nil pool. -/
  | nilHandle (printed : String)
  /-- The statement `return dbPool`. -/
  | handle (cfg : ConnSetup)
deriving DecidableEq

/-- The closure `mustGetenv` (lines 47-53); `Except.error` is the `log.Fatalf` exit. -/
def mustGetenv (env : String → String) (k : String) : Except String String :=
  let v := env k
  if v = "" then .error ("Warning: " ++ k ++ " environment variable not set.\n") else .ok v

/-- The DSN of line 70, `fmt.Sprintf("user=%s password=%s database=%s", ...)`. -/
def dsnOf (dbUser dbPwd dbName : String) : String :=
  "user=" ++ dbUser ++ " password=" ++ dbPwd ++ " database=" ++ dbName

/-- The slice `opts` after lines 76-82. -/
def dialerOpts (dbIAMUser usePrivate : String) : List DialerOption :=
  (if dbIAMUser ≠ "" then [DialerOption.WithIAMAuthN] else []) ++
  (if usePrivate ≠ "" then [DialerOption.WithPrivateIP] else [])

/-- The function `dbConn`. -/
def dbConn (w : World) : ConnResult :=
  let dbUser := w.env "DB_USER"
  let dbIAMUser := w.env "DB_IAM_USER"
  match mustGetenv w.env "DB_PASS" with
  | .error m => .fatal m
  | .ok dbPwd =>
  match mustGetenv w.env "DB_NAME" with
  | .error m => .fatal m
  | .ok dbName =>
  match mustGetenv w.env "INSTANCE_CONNECTION_NAME" with
  | .error m => .fatal m
  | .ok instanceConnectionName =>
  let usePrivate := w.env "PRIVATE_IP"
  if dbUser = "" ∧ dbIAMUser = "" then
    .fatal "Warning: One of DB_USER or DB_IAM_USER must be defined"
  else
    let dsn := dsnOf dbUser dbPwd dbName
    match w.parseConfig dsn with
    | some err => .nilHandle err
    | none =>
    let opts := dialerOpts dbIAMUser usePrivate
    match w.newDialer opts with
    | some err => .nilHandle err
    | none =>
    match w.sqlOpen with
    | some err => .nilHandle err
    | none => .handle ⟨dsn, opts, instanceConnectionName⟩

/-! ## `strconv.Atoi` -/

/-- The error kinds of package `strconv`. -/
inductive NumError where
  | ErrSyntax
  | ErrRange
deriving DecidableEq

/-- The constant `strconv.IntSize` of a 64-bit platform: the width of `int`. -/
def intSize : Nat := 64

/-- The test `'0' <= c && c <= '9'`. -/
def isDigit (c : Char) : Bool := decide (48 ≤ c.toNat) && decide (c.toNat ≤ 57)

/-- The digit `c - '0'`. -/
def digitVal (c : Char) : Nat := c.toNat - 48

/-- The loop of `strconv.ParseUint(s, 10, 0)` over the bytes of `s`, with the
`uint64` accumulator `n`: a non-digit is a syntax error (value 0), an overflow
is a range error (value `maxVal`) and ends the loop at once. -/
def parseUintLoop : List Char → Nat → Nat × Option NumError
  | [], n => (n, none)
  | c :: cs, n =>
    if isDigit c then
      if n ≥ (2 ^ 64 - 1) / 10 + 1 then (2 ^ intSize - 1, some .ErrRange)
      else
        let n10 := n * 10
        let n1 := (n10 + digitVal c) % 2 ^ 64
        if n1 < n10 ∨ n1 > 2 ^ intSize - 1 then (2 ^ intSize - 1, some .ErrRange)
        else parseUintLoop cs n1
    else (0, some .ErrSyntax)

/-- The function `strconv.ParseUint(s, 10, 0)`. -/
def ParseUint (s : List Char) : Nat × Option NumError :=
  if s = [] then (0, some .ErrSyntax) else parseUintLoop s 0

/-- The function `strconv.ParseInt(s, 10, 0)`: leading sign, unsigned
conversion, range check against `1 << (IntSize-1)`. -/
def ParseInt (s : List Char) : Int × Option NumError :=
  match s with
  | [] => (0, some .ErrSyntax)
  | c :: rest =>
    let neg := decide (c = '-')
    let body := if c = '+' ∨ c = '-' then rest else c :: rest
    match ParseUint body with
    | (_, some .ErrSyntax) => (0, some .ErrSyntax)
    | (un, _) =>
      let cutoff : Nat := 2 ^ (intSize - 1)
      if ¬ neg ∧ un ≥ cutoff then (((cutoff - 1 : Nat) : Int), some .ErrRange)
      else if neg ∧ un > cutoff then (-(cutoff : Int), some .ErrRange)
      else (if neg then -(un : Int) else (un : Int), none)

/-- The function `strconv.Atoi`, documented as `ParseInt(s, 10, 0)` converted to `int`. -/
def Atoi (s : String) : Int × Option NumError := ParseInt s.toList

/-! ### Decimal integers, as the specification of `userid` words them -/

/-- The number that decimal digits denote when appended to the number `n`. -/
def decimalFrom (n : Nat) (cs : List Char) : Nat :=
  cs.foldl (fun acc c => acc * 10 + digitVal c) n

/-- The text after an optional leading sign. -/
def unsignedPart (cs : List Char) : List Char :=
  match cs with
  | [] => []
  | c :: rest => if c = '+' ∨ c = '-' then rest else c :: rest

/-- Whether the text starts with a minus sign. -/
def hasMinus (cs : List Char) : Bool :=
  match cs with
  | [] => false
  | c :: _ => decide (c = '-')

/-- A decimal integer: an optional sign followed by one or more digits. -/
def isDecimalInteger (s : String) : Bool :=
  !(unsignedPart s.toList).isEmpty && (unsignedPart s.toList).all isDigit

/-- The integer a decimal integer denotes. -/
def decimalInteger (s : String) : Int :=
  if hasMinus s.toList then -(decimalFrom 0 (unsignedPart s.toList) : Int)
  else (decimalFrom 0 (unsignedPart s.toList) : Int)

/-- The digits read before the first character that is not a digit. -/
def leadingDigits (s : String) : List Char := (unsignedPart s.toList).takeWhile isDigit

/-! ## The table `workitems` -/

/-- Modelled from the spec: the statement `SELECT * from workitems ORDER BY
workdatetime ASC;` on the persisted table `workitems(id PK, userid, workdatetime,
timetype)`, whose schema is not part of the source.  A row goes in front of the
first row that is not earlier than it. -/
def insertRow (r : WorkItem) : List WorkItem → List WorkItem
  | [] => [r]
  | x :: xs =>
    if x.WorkdateTime.before r.WorkdateTime then x :: insertRow r xs else r :: x :: xs

/-- Modelled from the spec: the ordered sequence of all rows (`ListAll`),
ascending by `workdatetime`; rows with equal times keep their storage order. -/
def ListAll (tbl : List WorkItem) : List WorkItem := tbl.foldr insertRow []

/-- Modelled from the spec: the statement `SELECT * from workitems WHERE id=$1;`
with a text argument.  The query fails when the driver reports an error or the
text is no integer; otherwise it yields the rows with that id, in storage order. -/
def selectById (w : World) (tbl : List WorkItem) (uId : String) : Except String (List WorkItem) :=
  match w.query "SELECT * from workitems WHERE id=$1;" with
  | some e => .error e
  | none =>
    match w.toInt uId with
    | none => .error "invalid input syntax for type integer"
    | some i => .ok (tbl.filter fun r => decide (r.Id = i))

/-- Modelled from the spec: the statement `INSERT INTO workitems(userid,
workdatetime, timetype) VALUES($1,$2,$3);`.  On success the table gains one row
whose id the storage assigns; `none` is a failed statement, which stores nothing. -/
def execInsert (w : World) (tbl : List WorkItem) (iuser : Int) (workdatetime timetype : String) :
    Option (List WorkItem) :=
  match w.exec with
  | some _ => none
  | none =>
    if w.intFits iuser then
      match w.toTimestamp workdatetime with
      | some t => some (tbl ++ [⟨w.freshId tbl, iuser, t, timetype⟩])
      | none => none
    else none

/-- Modelled from the spec: the statement `UPDATE workitems SET
workdatetime=$1,timetype=$2 WHERE id=$3;` with text arguments.  On success every
row with that id has the two columns replaced; `none` is a failed statement,
which changes nothing. -/
def execUpdate (w : World) (tbl : List WorkItem) (workdatetime timetype id : String) :
    Option (List WorkItem) :=
  match w.exec with
  | some _ => none
  | none =>
    match w.toTimestamp workdatetime, w.toInt id with
    | some t, some i =>
      some (tbl.map fun r =>
        if r.Id = i then { r with WorkdateTime := t, TimeType := timetype } else r)
    | _, _ => none

/-! ## The handlers -/

/-- What a handler writes to the `http.ResponseWriter`. -/
inductive Response where
  /-- The call `http.Redirect(w, r, url, code)`. -/
  | redirect (url : String) (code : Nat)
  /-- The call `tmpl.Execute(w, MapRecords)` on `index.html`. -/
  | indexPage (data : GoMap IndexData WorkItem)
  /-- The call `tmpl.Execute(w, EditRecord)` on `edit.html`. -/
  | editPage (data : WorkItem)

/-- How a handler invocation ends. -/
inductive Outcome where
  /-- The call `log.Fatal(err)`: the process exits and nothing is written. -/
  | fatal (msg : String)
  /-- A method called on the nil `*sql.DB` that `dbConn` returned: the handler panics. -/
  | panicked
  /-- The handler returns after writing the response. -/
  | responded (r : Response)

/-- A statement handed to `Exec`, with its arguments in call order. -/
inductive Stmt where
  | insert (userid : Int) (workdatetime timetype : String)
  | update (workdatetime timetype id : String)
deriving DecidableEq

/-- The result of a writing handler: how it ended, the table it leaves and the
statements it handed to `Exec`. -/
structure WriteResult where
  outcome : Outcome
  table : List WorkItem
  execs : List Stmt

/-- The key computed on line 127. -/
def indexOf (record : WorkItem) : IndexData :=
  ⟨record.UserId, record.WorkdateTime.Day, record.TimeType⟩

/-- The loop of lines 124-132 over the rows of the query, starting from the map
built so far; `Except.error` is the `log.Fatal` of a failed scan. -/
def scanRecords (w : World) : List WorkItem → GoMap IndexData WorkItem →
    Except String (GoMap IndexData WorkItem)
  | [], m => .ok m
  | record :: rest, m =>
    match w.scan record with
    | some e => .error e
    | none => scanRecords w rest (m.set (indexOf record) record)

/-- The handler `Index` (lines 109-140). -/
def Index (w : World) (tbl : List WorkItem) : Outcome :=
  match w.parseFiles "../templates/index.html" with
  | some e => .fatal e
  | none =>
  match dbConn w with
  | .fatal m => .fatal m
  | .nilHandle _ => .panicked
  | .handle _ =>
  match w.query "SELECT * from workitems ORDER BY workdatetime ASC;" with
  | some e => .fatal e
  | none =>
  match scanRecords w (ListAll tbl) GoMap.empty with
  | .error e => .fatal e
  | .ok MapRecords =>
  match w.rowsErr with
  | some e => .fatal e
  | none => .responded (.indexPage MapRecords)

/-- The handler `WorkItemCreate` (lines 143-162). -/
def WorkItemCreate (w : World) (r : Request) (tbl : List WorkItem) : WriteResult :=
  match dbConn w with
  | .fatal m => ⟨.fatal m, tbl, []⟩
  | db =>
  if r.Method = "POST" then
    let userid := r.FormValue "userid"
    let workdatetime := r.FormValue "workdatetime"
    let timetype := r.FormValue "timetype"
    let iuser := (Atoi userid).1
    match db with
    | .handle _ =>
      match w.prepare "INSERT INTO workitems(userid, workdatetime, timetype) VALUES($1,$2,$3);" with
      | some e => ⟨.fatal e, tbl, []⟩
      | none =>
        ⟨.responded (.redirect "/" 301),
          (execInsert w tbl iuser workdatetime timetype).getD tbl,
          [.insert iuser workdatetime timetype]⟩
    | _ => ⟨.panicked, tbl, []⟩
  else ⟨.responded (.redirect "/" 301), tbl, []⟩

/-- The loop of lines 175-182: `EditRecord` ends as the last scanned row. -/
def scanEdit (w : World) : List WorkItem → WorkItem → Except String WorkItem
  | [], EditRecord => .ok EditRecord
  | item :: rest, _ =>
    match w.scan item with
    | some e => .error e
    | none => scanEdit w rest item

/-- The handler `WorkItemEdit` (lines 164-189). -/
def WorkItemEdit (w : World) (r : Request) (tbl : List WorkItem) : Outcome :=
  match dbConn w with
  | .fatal m => .fatal m
  | .nilHandle _ => .panicked
  | .handle _ =>
  let uId := r.QueryGet "id"
  match selectById w tbl uId with
  | .error e => .fatal e
  | .ok rows =>
  match scanEdit w rows WorkItem.zero with
  | .error e => .fatal e
  | .ok EditRecord =>
  match w.parseFiles "../templates/edit.html" with
  | some e => .fatal e
  | none => .responded (.editPage EditRecord)

/-- The handler `WorkItemUpdate` (lines 191-212). -/
def WorkItemUpdate (w : World) (r : Request) (tbl : List WorkItem) : WriteResult :=
  match w.parseFiles "../templates/edit.html" with
  | some e => ⟨.fatal e, tbl, []⟩
  | none =>
  match dbConn w with
  | .fatal m => ⟨.fatal m, tbl, []⟩
  | db =>
  if r.Method = "POST" then
    let id := r.FormValue "id"
    let workdatetime := r.FormValue "workdatetime"
    let timetype := r.FormValue "timetype"
    match db with
    | .handle _ =>
      match w.prepare "UPDATE workitems SET workdatetime=$1,timetype=$2 WHERE id=$3;" with
      | some e => ⟨.fatal e, tbl, []⟩
      | none =>
        ⟨.responded (.redirect "/" 301),
          (execUpdate w tbl workdatetime timetype id).getD tbl,
          [.update workdatetime timetype id]⟩
    | _ => ⟨.panicked, tbl, []⟩
  else ⟨.responded (.redirect "/" 301), tbl, []⟩

/-! ## Sample environments and requests -/

/-- A complete configuration with a plain user only. -/
def envPlain : String → String := fun k =>
  if k = "DB_USER" then "alice"
  else if k = "DB_PASS" then "pw"
  else if k = "DB_NAME" then "db"
  else if k = "INSTANCE_CONNECTION_NAME" then "p:r:i"
  else ""

/-- A complete configuration with both a plain user and an IAM user. -/
def envBoth : String → String := fun k =>
  if k = "DB_IAM_USER" then "sa@proj.iam" else envPlain k

/-- A complete configuration with an IAM user and no plain user. -/
def envIAMOnly : String → String := fun k =>
  if k = "DB_USER" then "" else envBoth k

/-- A configuration that lacks `DB_NAME`. -/
def envNoName : String → String := fun k =>
  if k = "DB_NAME" then "" else envPlain k

/-- A sample text-to-timestamp conversion knowing two literals. -/
def sampleTimestamp (s : String) : Option Time :=
  if s = "2024-01-05T09:00:00" then some ⟨2024, 1, 5, 9, 0, 0, 0⟩
  else if s = "2024-01-06T09:00:00" then some ⟨2024, 1, 6, 9, 0, 0, 0⟩
  else none

/-- A sample text-to-integer conversion: decimal integers that fit `int`. -/
def sampleToInt (s : String) : Option Int :=
  match Atoi s with
  | (n, none) => some n
  | _ => none

/-- A world in which every external call succeeds. -/
def worldOk : World where
  env := envPlain
  parseConfig := fun _ => none
  newDialer := fun _ => none
  sqlOpen := none
  parseFiles := fun _ => none
  prepare := fun _ => none
  query := fun _ => none
  exec := none
  scan := fun _ => none
  rowsErr := none
  toInt := sampleToInt
  toTimestamp := sampleTimestamp
  intFits := fun _ => true
  freshId := fun tbl => (tbl.length : Int) + 1

/-- The world `worldOk` with both `DB_USER` and `DB_IAM_USER` set. -/
def worldBoth : World := { worldOk with env := envBoth }

/-- The world `worldOk` with `DB_IAM_USER` set and `DB_USER` unset. -/
def worldIAMOnly : World := { worldOk with env := envIAMOnly }

/-- The world `worldOk` without `DB_NAME`. -/
def worldNoName : World := { worldOk with env := envNoName }

/-- The world `worldOk` in which `pgx.ParseConfig` rejects every DSN. -/
def worldParseFails : World := { worldOk with parseConfig := fun _ => some "cannot parse config" }

/-- The world `worldOk` in which `db.Prepare` fails. -/
def worldPrepareFails : World := { worldOk with prepare := fun _ => some "prepare failed" }

/-- The world `worldOk` in which `Exec` fails. -/
def worldExecFails : World := { worldOk with exec := some "exec failed" }

/-- The world `worldOk` whose column `userid` holds 32-bit integers only. -/
def worldInt4 : World :=
  { worldOk with intFits := fun n => decide (-2147483648 ≤ n) && decide (n ≤ 2147483647) }

/-- A request with the given method, form values and query values. -/
def mkRequest (method : String) (form query : List (String × String)) : Request where
  Method := method
  FormValue := fun k => ((form.find? fun p => p.1 == k).map Prod.snd).getD ""
  QueryGet := fun k => ((query.find? fun p => p.1 == k).map Prod.snd).getD ""

/-- The request `POST /create` of the end-to-end scenario. -/
def reqCreate : Request :=
  mkRequest "POST" [("userid", "7"), ("workdatetime", "2024-01-05T09:00:00"), ("timetype", "in")] []

/-- The request `POST /create` with a user id beyond the range of `int`. -/
def reqCreateOverflow : Request :=
  mkRequest "POST"
    [("userid", "9223372036854775808"), ("workdatetime", "2024-01-05T09:00:00"), ("timetype", "in")] []

/-- The request `POST /update` of the end-to-end scenario, for id 1. -/
def reqUpdate : Request :=
  mkRequest "POST" [("id", "1"), ("workdatetime", "2024-01-06T09:00:00"), ("timetype", "out")] []

/-- The request `POST /update` for id 9. -/
def reqUpdateMissing : Request :=
  mkRequest "POST" [("id", "9"), ("workdatetime", "2024-01-06T09:00:00"), ("timetype", "out")] []

/-- The request `GET /update`. -/
def reqGetUpdate : Request :=
  mkRequest "GET" [("id", "1"), ("workdatetime", "2024-01-06T09:00:00"), ("timetype", "out")] []

/-- The request `GET /edit?id=1`. -/
def reqEdit : Request := mkRequest "GET" [] [("id", "1")]

/-- The request `GET /edit?id=9`. -/
def reqEditMissing : Request := mkRequest "GET" [] [("id", "9")]

/-- Two rows of user 1 on day 5 with type `in`, and one row of user 2. -/
def sampleTable : List WorkItem :=
  [⟨1, 1, ⟨2024, 1, 5, 9, 0, 0, 0⟩, "in"⟩,
   ⟨2, 1, ⟨2024, 1, 5, 10, 30, 0, 0⟩, "in"⟩,
   ⟨3, 2, ⟨2024, 1, 5, 8, 0, 0, 0⟩, "out"⟩]

/-- The world `worldOk` in which `cloudsqlconn.NewDialer` finds no credentials. -/
def worldNoCredentials : World :=
  { worldOk with newDialer := fun _ => some "failed to create default credentials" }

/-- The world `worldOk` in which no template file can be opened. -/
def worldNoTemplate : World :=
  { worldOk with parseFiles := fun _ => some "open template: no such file or directory" }

/-- The request `POST /update` for id 1 with a datetime the database cannot read. -/
def reqUpdateGarbage : Request :=
  mkRequest "POST" [("id", "1"), ("workdatetime", "garbage"), ("timetype", "out")] []

/-- The request `GET /create`. -/
def reqGetCreate : Request :=
  mkRequest "GET" [("userid", "7"), ("workdatetime", "2024-01-05T09:00:00"), ("timetype", "in")] []

/-- The request `GET /edit?id=abc`. -/
def reqEditNotInt : Request := mkRequest "GET" [] [("id", "abc")]

/-- The request `GET /edit` without an id. -/
def reqEditNoId : Request := mkRequest "GET" [] []

/-! ## `dbConn`: configuration checks and connection building -/

/-- With the configuration complete, `dbConn` is decided by the three external calls. -/
theorem dbConn_configured (w : World) (hp : w.env "DB_PASS" ≠ "") (hn : w.env "DB_NAME" ≠ "")
    (hi : w.env "INSTANCE_CONNECTION_NAME" ≠ "")
    (hu : ¬ (w.env "DB_USER" = "" ∧ w.env "DB_IAM_USER" = "")) :
    dbConn w =
      match w.parseConfig (dsnOf (w.env "DB_USER") (w.env "DB_PASS") (w.env "DB_NAME")) with
      | some err => .nilHandle err
      | none =>
        match w.newDialer (dialerOpts (w.env "DB_IAM_USER") (w.env "PRIVATE_IP")) with
        | some err => .nilHandle err
        | none =>
          match w.sqlOpen with
          | some err => .nilHandle err
          | none =>
            .handle ⟨dsnOf (w.env "DB_USER") (w.env "DB_PASS") (w.env "DB_NAME"),
              dialerOpts (w.env "DB_IAM_USER") (w.env "PRIVATE_IP"),
              w.env "INSTANCE_CONNECTION_NAME"⟩ := by
  simp only [dbConn, mustGetenv, hp, hn, hi, hu, if_false]

/-- With the configuration complete, `dbConn` does not end in `log.Fatal`. -/
theorem dbConn_configured_not_fatal (w : World) (hp : w.env "DB_PASS" ≠ "")
    (hn : w.env "DB_NAME" ≠ "") (hi : w.env "INSTANCE_CONNECTION_NAME" ≠ "")
    (hu : ¬ (w.env "DB_USER" = "" ∧ w.env "DB_IAM_USER" = "")) (msg : String) :
    dbConn w ≠ .fatal msg := by
  rw [dbConn_configured w hp hn hi hu]
  cases w.parseConfig _ <;> simp
  cases w.newDialer _ <;> simp
  cases w.sqlOpen <;> simp

/-- C3: evaluated where `DB_IAM_USER` is set, `dbConn` enables IAM authentication
but the user placed in the DSN is still `DB_USER`: `alice` when both are set, the
empty string when only the IAM user is set.  The IAM identity never reaches the
connection configuration. -/
theorem dbConn_iam_user_absent_from_dsn :
    dbConn worldBoth =
        .handle ⟨"user=alice password=pw database=db", [.WithIAMAuthN], "p:r:i"⟩ ∧
      dbConn worldIAMOnly =
        .handle ⟨"user= password=pw database=db", [.WithIAMAuthN], "p:r:i"⟩ := by
  decide

/-- C4: `dbConn` ends in `log.Fatal`, naming the first missing value, when
`DB_PASS`, `DB_NAME` or `INSTANCE_CONNECTION_NAME` is empty or when both `DB_USER`
and `DB_IAM_USER` are empty, and it does so whatever the connection calls would
have returned; with the three values and one of the users present it never ends
in `log.Fatal`, whatever `PRIVATE_IP` is. -/
theorem dbConn_fatal_iff_configuration_incomplete (w : World) :
    (w.env "DB_PASS" = "" →
      ∀ w2 : World, w2.env = w.env →
        dbConn w2 = .fatal "Warning: DB_PASS environment variable not set.\n") ∧
    (w.env "DB_PASS" ≠ "" → w.env "DB_NAME" = "" →
      ∀ w2 : World, w2.env = w.env →
        dbConn w2 = .fatal "Warning: DB_NAME environment variable not set.\n") ∧
    (w.env "DB_PASS" ≠ "" → w.env "DB_NAME" ≠ "" → w.env "INSTANCE_CONNECTION_NAME" = "" →
      ∀ w2 : World, w2.env = w.env →
        dbConn w2 =
          .fatal "Warning: INSTANCE_CONNECTION_NAME environment variable not set.\n") ∧
    (w.env "DB_PASS" ≠ "" → w.env "DB_NAME" ≠ "" → w.env "INSTANCE_CONNECTION_NAME" ≠ "" →
      w.env "DB_USER" = "" → w.env "DB_IAM_USER" = "" →
      ∀ w2 : World, w2.env = w.env →
        dbConn w2 = .fatal "Warning: One of DB_USER or DB_IAM_USER must be defined") ∧
    (w.env "DB_PASS" ≠ "" → w.env "DB_NAME" ≠ "" → w.env "INSTANCE_CONNECTION_NAME" ≠ "" →
      (w.env "DB_USER" ≠ "" ∨ w.env "DB_IAM_USER" ≠ "") →
      ∀ w2 : World, w2.env = w.env → ∀ msg, dbConn w2 ≠ .fatal msg) := by
  refine ⟨?_, ?_, ?_, ?_, ?_⟩
  · intro hp w2 he
    simp [dbConn, mustGetenv, he, hp]
  · intro hp hn w2 he
    simp [dbConn, mustGetenv, he, hp, hn]
  · intro hp hn hi w2 he
    simp [dbConn, mustGetenv, he, hp, hn, hi]
  · intro hp hn hi hu hiam w2 he
    simp [dbConn, mustGetenv, he, hp, hn, hi, hu, hiam]
  · intro hp hn hi hu w2 he msg
    refine dbConn_configured_not_fatal w2 (he ▸ hp) (he ▸ hn) (he ▸ hi) ?_ msg
    rw [he]
    rcases hu with h | h
    · exact fun hc => h hc.1
    · exact fun hc => h hc.2

/-- C4 at sample environments: a missing `DB_NAME` is fatal whatever
`pgx.ParseConfig` would return, and the complete configuration is not fatal. -/
theorem dbConn_fatal_iff_configuration_incomplete_witness :
    dbConn { worldParseFails with env := envNoName } =
        .fatal "Warning: DB_NAME environment variable not set.\n" ∧
      ∀ msg, dbConn worldParseFails ≠ .fatal msg :=
  ⟨(dbConn_fatal_iff_configuration_incomplete worldNoName).2.1 (by decide) (by decide) _ rfl,
    (dbConn_fatal_iff_configuration_incomplete worldOk).2.2.2.2 (by decide) (by decide)
      (by decide) (Or.inl (by decide)) _ rfl⟩

/-- C5 as stated fails: with the configuration complete and
`cloudsqlconn.NewDialer` failing for want of credentials, `dbConn` prints that
error, hands a nil pool to its caller and does not end in `log.Fatal`. -/
theorem dbConn_dialer_failure_returns_nil :
    dbConn worldNoCredentials = .nilHandle "failed to create default credentials" ∧
      ¬ ∃ msg, dbConn worldNoCredentials = .fatal msg := by
  have h : dbConn worldNoCredentials = .nilHandle "failed to create default credentials" := by
    decide
  refine ⟨h, ?_⟩
  rintro ⟨msg, hm⟩
  rw [h] at hm
  cases hm

/-- C5 amended: with the configuration complete, `dbConn` never ends in
`log.Fatal`; the first of `pgx.ParseConfig`, `cloudsqlconn.NewDialer` and
`sql.Open` that fails has exactly its error printed, and `dbConn` returns the nil
pool to its caller. -/
theorem dbConn_build_failure_returns_nil (w : World) (hp : w.env "DB_PASS" ≠ "")
    (hn : w.env "DB_NAME" ≠ "") (hi : w.env "INSTANCE_CONNECTION_NAME" ≠ "")
    (hu : w.env "DB_USER" ≠ "" ∨ w.env "DB_IAM_USER" ≠ "") :
    (∀ err,
      w.parseConfig (dsnOf (w.env "DB_USER") (w.env "DB_PASS") (w.env "DB_NAME")) = some err →
      dbConn w = .nilHandle err) ∧
    (w.parseConfig (dsnOf (w.env "DB_USER") (w.env "DB_PASS") (w.env "DB_NAME")) = none →
      ∀ err, w.newDialer (dialerOpts (w.env "DB_IAM_USER") (w.env "PRIVATE_IP")) = some err →
      dbConn w = .nilHandle err) ∧
    (w.parseConfig (dsnOf (w.env "DB_USER") (w.env "DB_PASS") (w.env "DB_NAME")) = none →
      w.newDialer (dialerOpts (w.env "DB_IAM_USER") (w.env "PRIVATE_IP")) = none →
      ∀ err, w.sqlOpen = some err → dbConn w = .nilHandle err) ∧
    (∀ msg, dbConn w ≠ .fatal msg) := by
  have hu2 : ¬ (w.env "DB_USER" = "" ∧ w.env "DB_IAM_USER" = "") := by
    rcases hu with h | h
    · exact fun hc => h hc.1
    · exact fun hc => h hc.2
  refine ⟨?_, ?_, ?_, dbConn_configured_not_fatal w hp hn hi hu2⟩
  · intro err h1
    rw [dbConn_configured w hp hn hi hu2, h1]
  · intro h1 err h2
    rw [dbConn_configured w hp hn hi hu2, h1, h2]
  · intro h1 h2 err h3
    rw [dbConn_configured w hp hn hi hu2, h1, h2, h3]

/-- C5 amended, at a world whose `cloudsqlconn.NewDialer` fails: the printed
text is the error of the dialer, and the call is not fatal. -/
theorem dbConn_build_failure_returns_nil_witness :
    dbConn worldNoCredentials = .nilHandle "failed to create default credentials" ∧
      ∀ msg, dbConn worldNoCredentials ≠ .fatal msg :=
  have h := dbConn_build_failure_returns_nil worldNoCredentials (by decide) (by decide)
    (by decide) (Or.inl (by decide))
  ⟨h.2.1 rfl _ rfl, h.2.2.2⟩

/-! ## The writing handlers, case by case -/

/-- A call of `dbConn` that returns a pool did not exit. -/
theorem dbConn_handle_not_fatal (w : World) (cfg : ConnSetup) (h : dbConn w = .handle cfg)
    (msg : String) : dbConn w ≠ .fatal msg := by
  rw [h]
  exact fun hc => ConnResult.noConfusion hc

/-- The handler `WorkItemCreate` when `dbConn` exits. -/
theorem WorkItemCreate_fatal (w : World) (r : Request) (tbl : List WorkItem) (msg : String)
    (h : dbConn w = .fatal msg) : WorkItemCreate w r tbl = ⟨.fatal msg, tbl, []⟩ := by
  simp only [WorkItemCreate, h]

/-- The handler `WorkItemCreate` on a method other than POST. -/
theorem WorkItemCreate_other_method (w : World) (r : Request) (tbl : List WorkItem)
    (hm : r.Method ≠ "POST") (hconn : ∀ msg, dbConn w ≠ .fatal msg) :
    WorkItemCreate w r tbl = ⟨.responded (.redirect "/" 301), tbl, []⟩ := by
  unfold WorkItemCreate
  split
  · next m h => exact absurd h (hconn m)
  · simp only [hm, if_false]

/-- The handler `WorkItemCreate` on POST with a nil pool. -/
theorem WorkItemCreate_post_nil (w : World) (r : Request) (tbl : List WorkItem) (e : String)
    (hm : r.Method = "POST") (h : dbConn w = .nilHandle e) :
    WorkItemCreate w r tbl = ⟨.panicked, tbl, []⟩ := by
  simp only [WorkItemCreate, h, hm, if_true]

/-- The handler `WorkItemCreate` on POST with a pool. -/
theorem WorkItemCreate_post_handle (w : World) (r : Request) (tbl : List WorkItem)
    (cfg : ConnSetup) (hm : r.Method = "POST") (h : dbConn w = .handle cfg) :
    WorkItemCreate w r tbl =
      match w.prepare "INSERT INTO workitems(userid, workdatetime, timetype) VALUES($1,$2,$3);" with
      | some e => ⟨.fatal e, tbl, []⟩
      | none =>
        ⟨.responded (.redirect "/" 301),
          (execInsert w tbl (Atoi (r.FormValue "userid")).1 (r.FormValue "workdatetime")
            (r.FormValue "timetype")).getD tbl,
          [.insert (Atoi (r.FormValue "userid")).1 (r.FormValue "workdatetime")
            (r.FormValue "timetype")]⟩ := by
  simp only [WorkItemCreate, h, hm, if_true]

/-- The handler `WorkItemUpdate` when the template does not load. -/
theorem WorkItemUpdate_template_error (w : World) (r : Request) (tbl : List WorkItem)
    (e : String) (h : w.parseFiles "../templates/edit.html" = some e) :
    WorkItemUpdate w r tbl = ⟨.fatal e, tbl, []⟩ := by
  simp only [WorkItemUpdate, h]

/-- The handler `WorkItemUpdate` when `dbConn` exits. -/
theorem WorkItemUpdate_fatal (w : World) (r : Request) (tbl : List WorkItem) (msg : String)
    (ht : w.parseFiles "../templates/edit.html" = none) (h : dbConn w = .fatal msg) :
    WorkItemUpdate w r tbl = ⟨.fatal msg, tbl, []⟩ := by
  simp only [WorkItemUpdate, ht, h]

/-- The handler `WorkItemUpdate` on a method other than POST. -/
theorem WorkItemUpdate_other_method (w : World) (r : Request) (tbl : List WorkItem)
    (hm : r.Method ≠ "POST") (ht : w.parseFiles "../templates/edit.html" = none)
    (hconn : ∀ msg, dbConn w ≠ .fatal msg) :
    WorkItemUpdate w r tbl = ⟨.responded (.redirect "/" 301), tbl, []⟩ := by
  cases h : dbConn w with
  | fatal m => exact absurd h (hconn m)
  | nilHandle e => simp only [WorkItemUpdate, ht, h, hm, if_false]
  | handle cfg => simp only [WorkItemUpdate, ht, h, hm, if_false]

/-- The handler `WorkItemUpdate` on POST with a nil pool. -/
theorem WorkItemUpdate_post_nil (w : World) (r : Request) (tbl : List WorkItem) (e : String)
    (hm : r.Method = "POST") (ht : w.parseFiles "../templates/edit.html" = none)
    (h : dbConn w = .nilHandle e) :
    WorkItemUpdate w r tbl = ⟨.panicked, tbl, []⟩ := by
  simp only [WorkItemUpdate, ht, h, hm, if_true]

/-- The handler `WorkItemUpdate` on POST with a pool. -/
theorem WorkItemUpdate_post_handle (w : World) (r : Request) (tbl : List WorkItem)
    (cfg : ConnSetup) (hm : r.Method = "POST")
    (ht : w.parseFiles "../templates/edit.html" = none) (h : dbConn w = .handle cfg) :
    WorkItemUpdate w r tbl =
      match w.prepare "UPDATE workitems SET workdatetime=$1,timetype=$2 WHERE id=$3;" with
      | some e => ⟨.fatal e, tbl, []⟩
      | none =>
        ⟨.responded (.redirect "/" 301),
          (execUpdate w tbl (r.FormValue "workdatetime") (r.FormValue "timetype")
            (r.FormValue "id")).getD tbl,
          [.update (r.FormValue "workdatetime") (r.FormValue "timetype") (r.FormValue "id")]⟩ := by
  simp only [WorkItemUpdate, ht, h, hm, if_true]

/-- Whatever the handler `WorkItemCreate` does, it writes nothing unless the method is POST. -/
theorem WorkItemCreate_other_method_frame (w : World) (r : Request) (tbl : List WorkItem)
    (hm : r.Method ≠ "POST") :
    (WorkItemCreate w r tbl).table = tbl ∧ (WorkItemCreate w r tbl).execs = [] := by
  unfold WorkItemCreate
  split
  · exact ⟨rfl, rfl⟩
  · simp only [hm, if_false, and_self]

/-- Whatever the handler `WorkItemUpdate` does, it writes nothing unless the method is POST. -/
theorem WorkItemUpdate_other_method_frame (w : World) (r : Request) (tbl : List WorkItem)
    (hm : r.Method ≠ "POST") :
    (WorkItemUpdate w r tbl).table = tbl ∧ (WorkItemUpdate w r tbl).execs = [] := by
  unfold WorkItemUpdate
  split
  · exact ⟨rfl, rfl⟩
  · split
    · exact ⟨rfl, rfl⟩
    · simp only [hm, if_false, and_self]

/-! ## C2 and C9: the response of the writing handlers -/

/-- C2 as stated fails: on a POST whose `db.Prepare` fails both writing handlers
end in `log.Fatal`, and on a POST after a failed connection build
`WorkItemCreate` panics on the nil pool; no redirect is written. -/
theorem write_handlers_failure_without_redirect :
    (WorkItemCreate worldPrepareFails reqCreate sampleTable).outcome = .fatal "prepare failed" ∧
      (WorkItemUpdate worldPrepareFails reqUpdate sampleTable).outcome = .fatal "prepare failed" ∧
      (WorkItemCreate worldParseFails reqCreate sampleTable).outcome = .panicked :=
  ⟨rfl, rfl, rfl⟩

/-- C2 amended: when `dbConn` does not exit, a POST has a pool and its
`db.Prepare` succeeds (and, for `WorkItemUpdate`, the template loads), the handler
redirects to `/` with status 301, whatever the method and whatever `Exec` returns. -/
theorem write_handlers_redirect_when_prepared (w : World) (r : Request) (tbl : List WorkItem)
    (hconn : ∀ msg, dbConn w ≠ .fatal msg)
    (hpool : r.Method = "POST" → ∃ cfg, dbConn w = .handle cfg) :
    ((r.Method = "POST" →
        w.prepare "INSERT INTO workitems(userid, workdatetime, timetype) VALUES($1,$2,$3);"
          = none) →
      (WorkItemCreate w r tbl).outcome = .responded (.redirect "/" 301)) ∧
    (w.parseFiles "../templates/edit.html" = none →
      (r.Method = "POST" →
        w.prepare "UPDATE workitems SET workdatetime=$1,timetype=$2 WHERE id=$3;" = none) →
      (WorkItemUpdate w r tbl).outcome = .responded (.redirect "/" 301)) := by
  by_cases hm : r.Method = "POST"
  · obtain ⟨cfg, hc⟩ := hpool hm
    constructor
    · intro hprep
      rw [WorkItemCreate_post_handle w r tbl cfg hm hc, hprep hm]
    · intro ht hprep
      rw [WorkItemUpdate_post_handle w r tbl cfg hm ht hc, hprep hm]
  · constructor
    · intro _
      rw [WorkItemCreate_other_method w r tbl hm hconn]
    · intro ht _
      rw [WorkItemUpdate_other_method w r tbl hm ht hconn]

/-- C2 amended, at a POST whose `Exec` fails: both handlers still redirect. -/
theorem write_handlers_redirect_when_prepared_witness :
    (WorkItemCreate worldExecFails reqCreate sampleTable).outcome
        = .responded (.redirect "/" 301) ∧
      (WorkItemUpdate worldExecFails reqUpdate sampleTable).outcome
        = .responded (.redirect "/" 301) :=
  have h := write_handlers_redirect_when_prepared worldExecFails
  ⟨(h reqCreate sampleTable (dbConn_handle_not_fatal _ _ rfl) (fun _ => ⟨_, rfl⟩)).1 (fun _ => rfl),
    (h reqUpdate sampleTable (dbConn_handle_not_fatal _ _ rfl) (fun _ => ⟨_, rfl⟩)).2 rfl (fun _ => rfl)⟩

/-- C9 as stated fails: a GET to either writing handler with `DB_NAME` unset
ends in the `log.Fatal` of `dbConn`, and a GET to `WorkItemUpdate` whose template
does not load ends in `log.Fatal` too; no redirect is written. -/
theorem write_handlers_other_method_exit_without_redirect :
    (WorkItemCreate worldNoName reqGetCreate sampleTable).outcome =
        .fatal "Warning: DB_NAME environment variable not set.\n" ∧
      (WorkItemUpdate worldNoName reqGetUpdate sampleTable).outcome =
        .fatal "Warning: DB_NAME environment variable not set.\n" ∧
      (WorkItemUpdate worldNoTemplate reqGetUpdate sampleTable).outcome =
        .fatal "open template: no such file or directory" :=
  ⟨rfl, rfl, rfl⟩

/-- C9 amended: on a method other than POST neither writing handler hands a
statement to `Exec` and the table is left as it was, in every world.  The response
is the redirect to `/` with status 301 exactly when the handler reaches its method
test: `WorkItemCreate` when `dbConn` does not exit, `WorkItemUpdate` when the
template loads and `dbConn` does not exit, a nil pool included; otherwise the
handler ends in the `log.Fatal` of the failed step. -/
theorem write_handlers_skip_on_other_method (w : World) (r : Request) (tbl : List WorkItem)
    (hm : r.Method ≠ "POST") :
    (WorkItemCreate w r tbl).table = tbl ∧ (WorkItemCreate w r tbl).execs = [] ∧
    (WorkItemUpdate w r tbl).table = tbl ∧ (WorkItemUpdate w r tbl).execs = [] ∧
    ((∀ msg, dbConn w ≠ .fatal msg) →
      (WorkItemCreate w r tbl).outcome = .responded (.redirect "/" 301)) ∧
    ((∀ msg, dbConn w ≠ .fatal msg) → w.parseFiles "../templates/edit.html" = none →
      (WorkItemUpdate w r tbl).outcome = .responded (.redirect "/" 301)) ∧
    (∀ msg, dbConn w = .fatal msg → (WorkItemCreate w r tbl).outcome = .fatal msg) ∧
    (∀ e, w.parseFiles "../templates/edit.html" = some e →
      (WorkItemUpdate w r tbl).outcome = .fatal e) ∧
    (w.parseFiles "../templates/edit.html" = none → ∀ msg, dbConn w = .fatal msg →
      (WorkItemUpdate w r tbl).outcome = .fatal msg) := by
  refine ⟨(WorkItemCreate_other_method_frame w r tbl hm).1,
    (WorkItemCreate_other_method_frame w r tbl hm).2,
    (WorkItemUpdate_other_method_frame w r tbl hm).1,
    (WorkItemUpdate_other_method_frame w r tbl hm).2, ?_, ?_, ?_, ?_, ?_⟩
  · intro hconn
    rw [WorkItemCreate_other_method w r tbl hm hconn]
  · intro hconn ht
    rw [WorkItemUpdate_other_method w r tbl hm ht hconn]
  · intro msg h
    rw [WorkItemCreate_fatal w r tbl msg h]
  · intro e h
    rw [WorkItemUpdate_template_error w r tbl e h]
  · intro ht msg h
    rw [WorkItemUpdate_fatal w r tbl msg ht h]

/-- C9 amended, at the request `GET /update`: the sample table is untouched and
the response is the redirect. -/
theorem write_handlers_skip_on_other_method_witness :
    (WorkItemUpdate worldOk reqGetUpdate sampleTable).table = sampleTable ∧
      (WorkItemUpdate worldOk reqGetUpdate sampleTable).execs = [] ∧
      (WorkItemUpdate worldOk reqGetUpdate sampleTable).outcome
        = .responded (.redirect "/" 301) :=
  have h := write_handlers_skip_on_other_method worldOk reqGetUpdate sampleTable (by decide)
  ⟨h.2.2.1, h.2.2.2.1, h.2.2.2.2.2.1 (dbConn_handle_not_fatal _ _ rfl) rfl⟩

/-! ## C1: the map built by `Index` -/

/-- When every scan succeeds the loop of `Index` ends normally, and the map then
holds at each key the last row with that key, or else what it held before. -/
theorem scanRecords_last (w : World) (rows : List WorkItem) (m : GoMap IndexData WorkItem)
    (hscan : ∀ r ∈ rows, w.scan r = none) :
    ∃ m2, scanRecords w rows m = .ok m2 ∧
      ∀ k, m2 k = ((rows.filter fun r => decide (indexOf r = k)).getLast?).or (m k) := by
  induction rows generalizing m with
  | nil => exact ⟨m, rfl, fun k => by simp⟩
  | cons r rest ih =>
    have hr : w.scan r = none := hscan r (List.mem_cons_self r rest)
    obtain ⟨m2, hm2, hk⟩ := ih (m.set (indexOf r) r)
      (fun x hx => hscan x (List.mem_cons_of_mem r hx))
    refine ⟨m2, by simp only [scanRecords, hr, hm2], fun k => ?_⟩
    rw [hk k]
    by_cases hkey : indexOf r = k
    · have hset : (m.set (indexOf r) r) k = some r := by simp [GoMap.set, hkey]
      rw [hset, List.filter_cons_of_pos (by simpa using hkey), List.getLast?_cons]
      cases (rest.filter fun r => decide (indexOf r = k)).getLast? <;> simp
    · have hne : ¬ k = indexOf r := fun h => hkey h.symm
      have hset : (m.set (indexOf r) r) k = m k := by
        simp only [GoMap.set, hne, if_false]
      rw [hset, List.filter_cons_of_neg (by simpa using hkey)]

/-- The key of a row is the triple of its `UserId`, the day of the month of its
`WorkdateTime` and its `TimeType`. -/
theorem indexOf_eq_iff (r : WorkItem) (user day : Int) (timetype : String) :
    indexOf r = ⟨user, day, timetype⟩ ↔
      r.UserId = user ∧ r.WorkdateTime.day = day ∧ r.TimeType = timetype := by
  simp only [indexOf, Time.Day, IndexData.mk.injEq]

/-- The loop of `Index` from the empty map, with the key spelled out: the entry
at `(user, day, timetype)` is the last row with that `UserId`, that day of the
month and that `TimeType`. -/
theorem scanRecords_last_by_fields (w : World) (rows : List WorkItem)
    (hscan : ∀ r, w.scan r = none) :
    ∃ m, scanRecords w rows GoMap.empty = .ok m ∧
      ∀ (user day : Int) (timetype : String), m ⟨user, day, timetype⟩ =
        (rows.filter fun r =>
          decide (r.UserId = user ∧ r.WorkdateTime.day = day ∧ r.TimeType = timetype)).getLast? := by
  obtain ⟨m, hm, hk⟩ := scanRecords_last w rows GoMap.empty (fun r _ => hscan r)
  refine ⟨m, hm, fun user day timetype => ?_⟩
  rw [hk ⟨user, day, timetype⟩]
  have hfilter : (rows.filter fun r => decide (indexOf r = ⟨user, day, timetype⟩)) =
      rows.filter fun r =>
        decide (r.UserId = user ∧ r.WorkdateTime.day = day ∧ r.TimeType = timetype) := by
    apply List.filter_congr
    intro r _
    exact decide_eq_decide.mpr (indexOf_eq_iff r user day timetype)
  rw [hfilter]
  simp [GoMap.empty]

/-- C1: over any sequence of rows whose scans succeed the loop of `Index`
builds a map that holds at each key `(user, day, timetype)` the last row of the
sequence whose `UserId` is `user`, whose `WorkdateTime` has day of the month `day`
and whose `TimeType` is `timetype`, and nothing when no row is such; and when the
template loads, `dbConn` returns a pool and the query and its scans succeed,
`Index` hands exactly that map, built over the rows in query order, to the
template.  In particular a row `B` that follows a row `A` with the same user, day
of the month and time type, with no later such row, is the entry at their key. -/
theorem Index_map_holds_last_row_per_key (w : World) (tbl : List WorkItem)
    (htmpl : w.parseFiles "../templates/index.html" = none)
    (hconn : ∃ cfg, dbConn w = .handle cfg)
    (hquery : w.query "SELECT * from workitems ORDER BY workdatetime ASC;" = none)
    (hscan : ∀ r, w.scan r = none)
    (herr : w.rowsErr = none) :
    (∀ rows : List WorkItem, ∃ m, scanRecords w rows GoMap.empty = .ok m ∧
      ∀ (user day : Int) (timetype : String), m ⟨user, day, timetype⟩ =
        (rows.filter fun r =>
          decide (r.UserId = user ∧ r.WorkdateTime.day = day ∧ r.TimeType = timetype)).getLast?) ∧
    ∃ MapRecords, Index w tbl = .responded (.indexPage MapRecords) ∧
      (∀ (user day : Int) (timetype : String), MapRecords ⟨user, day, timetype⟩ =
        ((ListAll tbl).filter fun r =>
          decide (r.UserId = user ∧ r.WorkdateTime.day = day ∧ r.TimeType = timetype)).getLast?) ∧
      (∀ (user day : Int) (timetype : String),
        (∀ r ∈ ListAll tbl,
          ¬ (r.UserId = user ∧ r.WorkdateTime.day = day ∧ r.TimeType = timetype)) →
        MapRecords ⟨user, day, timetype⟩ = none) ∧
      (∀ front A mid B back, ListAll tbl = front ++ A :: (mid ++ B :: back) →
        A.UserId = B.UserId → A.WorkdateTime.day = B.WorkdateTime.day →
        A.TimeType = B.TimeType →
        (∀ r ∈ back, ¬ (r.UserId = B.UserId ∧ r.WorkdateTime.day = B.WorkdateTime.day ∧
          r.TimeType = B.TimeType)) →
        MapRecords ⟨A.UserId, A.WorkdateTime.day, A.TimeType⟩ = some B) := by
  refine ⟨fun rows => scanRecords_last_by_fields w rows hscan, ?_⟩
  obtain ⟨cfg, hc⟩ := hconn
  obtain ⟨m, hm, hk⟩ := scanRecords_last_by_fields w (ListAll tbl) hscan
  refine ⟨m, by simp only [Index, htmpl, hc, hquery, hm, herr], hk, ?_, ?_⟩
  · intro user day timetype hno
    rw [hk user day timetype, List.getLast?_eq_none_iff, List.filter_eq_nil_iff]
    intro r hr
    simpa using hno r hr
  · intro front A mid B back hrows hu hd ht hback
    rw [hk A.UserId A.WorkdateTime.day A.TimeType, hrows, hu, hd, ht]
    have hnil : (back.filter fun r => decide (r.UserId = B.UserId ∧
        r.WorkdateTime.day = B.WorkdateTime.day ∧ r.TimeType = B.TimeType)) = [] := by
      rw [List.filter_eq_nil_iff]
      intro r hr
      simpa using hback r hr
    have hsplit : front ++ A :: (mid ++ B :: back) = (front ++ A :: mid) ++ B :: back := by
      simp
    rw [hsplit, List.filter_append, List.filter_cons_of_pos (by simp), hnil,
      List.getLast?_append]
    simp

/-- C1 on the sample table: rows 1 and 2 share user 1, day 5 and type `in`, and
the map handed to the template holds row 2, the later one, there; row 3 is the
entry of user 2, day 5, type `out`; and there is no entry for user 1 with type
`out`, for user 1 on day 6, or for user 2 with type `in`. -/
theorem Index_map_holds_last_row_per_key_witness :
    ∃ MapRecords, Index worldOk sampleTable = .responded (.indexPage MapRecords) ∧
      MapRecords ⟨1, 5, "in"⟩ = some ⟨2, 1, ⟨2024, 1, 5, 10, 30, 0, 0⟩, "in"⟩ ∧
      MapRecords ⟨2, 5, "out"⟩ = some ⟨3, 2, ⟨2024, 1, 5, 8, 0, 0, 0⟩, "out"⟩ ∧
      MapRecords ⟨1, 5, "out"⟩ = none ∧
      MapRecords ⟨1, 6, "in"⟩ = none ∧
      MapRecords ⟨2, 5, "in"⟩ = none := by
  obtain ⟨_, m, hm, hk, _, _⟩ :=
    Index_map_holds_last_row_per_key worldOk sampleTable rfl ⟨_, rfl⟩ rfl (fun _ => rfl) rfl
  exact ⟨m, hm, by rw [hk]; decide, by rw [hk]; decide, by rw [hk]; decide,
    by rw [hk]; decide, by rw [hk]; decide⟩

/-! ## C8: `WorkItemEdit` -/

/-- When every scan succeeds the loop of `WorkItemEdit` ends with the last row,
or with the initial record when there is no row. -/
theorem scanEdit_last (w : World) (rows : List WorkItem) (init : WorkItem)
    (hscan : ∀ r ∈ rows, w.scan r = none) :
    scanEdit w rows init = .ok (rows.getLast?.getD init) := by
  induction rows generalizing init with
  | nil => rfl
  | cons r rest ih =>
    have hr : w.scan r = none := hscan r (List.mem_cons_self r rest)
    simp only [scanEdit, hr, ih r (fun x hx => hscan x (List.mem_cons_of_mem r hx)),
      List.getLast?_cons, Option.getD_some]

/-- The handler `WorkItemEdit` when its pool, query, scans and template succeed:
it renders the last row with the requested id, or the zero value. -/
theorem WorkItemEdit_renders (w : World) (q : Request) (tbl : List WorkItem) (i : Int)
    (hconn : ∃ cfg, dbConn w = .handle cfg)
    (hquery : w.query "SELECT * from workitems WHERE id=$1;" = none)
    (hid : w.toInt (q.QueryGet "id") = some i)
    (hscan : ∀ r ∈ tbl.filter (fun x => decide (x.Id = i)), w.scan r = none)
    (htmpl : w.parseFiles "../templates/edit.html" = none) :
    WorkItemEdit w q tbl =
      .responded (.editPage ((tbl.filter fun x => decide (x.Id = i)).getLast?.getD WorkItem.zero)) := by
  obtain ⟨cfg, hc⟩ := hconn
  simp only [WorkItemEdit, hc, selectById, hquery, hid, scanEdit_last w _ _ hscan, htmpl]

/-- The handler `WorkItemEdit` when the database cannot read the id as an
integer: the query fails and the handler ends in `log.Fatal`. -/
theorem WorkItemEdit_id_not_integer (w : World) (q : Request) (tbl : List WorkItem)
    (hconn : ∃ cfg, dbConn w = .handle cfg)
    (hquery : w.query "SELECT * from workitems WHERE id=$1;" = none)
    (hid : w.toInt (q.QueryGet "id") = none) :
    WorkItemEdit w q tbl = .fatal "invalid input syntax for type integer" := by
  obtain ⟨cfg, hc⟩ := hconn
  simp only [WorkItemEdit, hc, selectById, hquery, hid]

/-- C8 as stated fails: the ids `abc` and the missing id match no row of the
sample table, yet `WorkItemEdit` ends in `log.Fatal` on the failed query instead
of rendering the zero-value record. -/
theorem WorkItemEdit_non_integer_id_is_fatal :
    (∀ row ∈ sampleTable, worldOk.toInt (reqEditNotInt.QueryGet "id") ≠ some row.Id) ∧
      WorkItemEdit worldOk reqEditNotInt sampleTable =
        .fatal "invalid input syntax for type integer" ∧
      (∀ row ∈ sampleTable, worldOk.toInt (reqEditNoId.QueryGet "id") ≠ some row.Id) ∧
      WorkItemEdit worldOk reqEditNoId sampleTable =
        .fatal "invalid input syntax for type integer" :=
  ⟨by decide, rfl, by decide, rfl⟩

/-- C8 amended: with a pool and a query the driver does not reject, an id the
database reads as an integer `i` makes `WorkItemEdit`, once the template loads,
render the zero-value `WorkItem` (Id 0, UserId 0, the zero time, empty TimeType)
when no row has id `i`, without any error, and render the row when exactly one
row has it and scans; an id the database cannot read as an integer makes the
query fail and the handler end in `log.Fatal`. -/
theorem WorkItemEdit_zero_record_on_miss (w : World) (q : Request) (tbl : List WorkItem)
    (hconn : ∃ cfg, dbConn w = .handle cfg)
    (hquery : w.query "SELECT * from workitems WHERE id=$1;" = none) :
    (∀ i : Int, w.toInt (q.QueryGet "id") = some i →
      w.parseFiles "../templates/edit.html" = none →
      ((∀ row ∈ tbl, row.Id ≠ i) →
        WorkItemEdit w q tbl = .responded (.editPage ⟨0, 0, ⟨1, 1, 1, 0, 0, 0, 0⟩, ""⟩)) ∧
      (∀ row, (tbl.filter fun x => decide (x.Id = i)) = [row] → w.scan row = none →
        WorkItemEdit w q tbl = .responded (.editPage row))) ∧
    (w.toInt (q.QueryGet "id") = none →
      WorkItemEdit w q tbl = .fatal "invalid input syntax for type integer") := by
  refine ⟨fun i hid htmpl => ⟨?_, ?_⟩, WorkItemEdit_id_not_integer w q tbl hconn hquery⟩
  · intro hmiss
    have hnil : (tbl.filter fun x => decide (x.Id = i)) = [] := by
      rw [List.filter_eq_nil_iff]
      intro row hrow
      simpa using hmiss row hrow
    rw [WorkItemEdit_renders w q tbl i hconn hquery hid (by rw [hnil]; simp) htmpl, hnil]
    rfl
  · intro row hone hscan
    rw [WorkItemEdit_renders w q tbl i hconn hquery hid (by rw [hone]; simpa using hscan) htmpl,
      hone]
    rfl

/-- C8 amended, on the sample table: id 9 renders the zero value, id 1 renders
row 1, and id `abc` is fatal. -/
theorem WorkItemEdit_zero_record_on_miss_witness :
    WorkItemEdit worldOk reqEditMissing sampleTable
        = .responded (.editPage ⟨0, 0, ⟨1, 1, 1, 0, 0, 0, 0⟩, ""⟩) ∧
      WorkItemEdit worldOk reqEdit sampleTable
        = .responded (.editPage ⟨1, 1, ⟨2024, 1, 5, 9, 0, 0, 0⟩, "in"⟩) ∧
      WorkItemEdit worldOk reqEditNotInt sampleTable
        = .fatal "invalid input syntax for type integer" :=
  ⟨((WorkItemEdit_zero_record_on_miss worldOk reqEditMissing sampleTable ⟨_, rfl⟩ rfl).1 9
      (by decide) rfl).1 (by decide),
    ((WorkItemEdit_zero_record_on_miss worldOk reqEdit sampleTable ⟨_, rfl⟩ rfl).1 1
      (by decide) rfl).2 _ (by decide) rfl,
    (WorkItemEdit_zero_record_on_miss worldOk reqEditNotInt sampleTable ⟨_, rfl⟩ rfl).2
      (by decide)⟩

/-! ## C6 and C7: the effect of `WorkItemUpdate` on the table -/

/-- An update whose id no row has leaves the table as it was, whether the
statement executes or fails. -/
theorem execUpdate_miss (w : World) (tbl : List WorkItem) (workdatetime timetype id : String)
    (hmiss : ∀ row ∈ tbl, w.toInt id ≠ some row.Id) :
    (execUpdate w tbl workdatetime timetype id).getD tbl = tbl := by
  unfold execUpdate
  split
  · rfl
  · split
    · next t i ht hi =>
      simp only [Option.getD_some]
      have hall : ∀ row ∈ tbl,
          (if row.Id = i then { row with WorkdateTime := t, TimeType := timetype } else row)
            = row := by
        intro row hrow
        have hne : ¬ row.Id = i := fun h => hmiss row hrow (by rw [hi, h])
        simp only [hne, if_false]
      calc tbl.map _ = tbl.map (fun row => row) := List.map_congr_left hall
        _ = tbl := by simp
    · rfl

/-- The table `WorkItemUpdate` leaves is the old one or the one `execUpdate` yields. -/
theorem WorkItemUpdate_table (w : World) (r : Request) (tbl : List WorkItem) :
    (WorkItemUpdate w r tbl).table = tbl ∨
      (WorkItemUpdate w r tbl).table =
        (execUpdate w tbl (r.FormValue "workdatetime") (r.FormValue "timetype")
          (r.FormValue "id")).getD tbl := by
  cases ht : w.parseFiles "../templates/edit.html" with
  | some e => exact Or.inl (by rw [WorkItemUpdate_template_error w r tbl e ht])
  | none =>
    by_cases hm : r.Method = "POST"
    · cases hc : dbConn w with
      | fatal m => exact Or.inl (by rw [WorkItemUpdate_fatal w r tbl m ht hc])
      | nilHandle e => exact Or.inl (by rw [WorkItemUpdate_post_nil w r tbl e hm ht hc])
      | handle cfg =>
        rw [WorkItemUpdate_post_handle w r tbl cfg hm ht hc]
        cases w.prepare "UPDATE workitems SET workdatetime=$1,timetype=$2 WHERE id=$3;" with
        | some e => exact Or.inl rfl
        | none => exact Or.inr rfl
    · exact Or.inl (WorkItemUpdate_other_method_frame w r tbl hm).1

/-- C7: a POST to `WorkItemUpdate` whose id no row has leaves the table as it
was in every world, so the ordered rows `Index` reads and the page it renders are
the same before and after; and with the template loaded, a pool and a prepared
statement the handler ends with the redirect, not with an error. -/
theorem WorkItemUpdate_unknown_id_is_noop (w : World) (r : Request) (tbl : List WorkItem)
    (hpost : r.Method = "POST")
    (hmiss : ∀ row ∈ tbl, w.toInt (r.FormValue "id") ≠ some row.Id) :
    (WorkItemUpdate w r tbl).table = tbl ∧
    ListAll (WorkItemUpdate w r tbl).table = ListAll tbl ∧
    Index w (WorkItemUpdate w r tbl).table = Index w tbl ∧
    (w.parseFiles "../templates/edit.html" = none → (∃ cfg, dbConn w = .handle cfg) →
      w.prepare "UPDATE workitems SET workdatetime=$1,timetype=$2 WHERE id=$3;" = none →
      (WorkItemUpdate w r tbl).outcome = .responded (.redirect "/" 301) ∧
      (WorkItemUpdate w r tbl).execs =
        [.update (r.FormValue "workdatetime") (r.FormValue "timetype") (r.FormValue "id")]) := by
  have htable : (WorkItemUpdate w r tbl).table = tbl := by
    rcases WorkItemUpdate_table w r tbl with h | h
    · exact h
    · rw [h, execUpdate_miss w tbl _ _ _ hmiss]
  refine ⟨htable, by rw [htable], by rw [htable], ?_⟩
  rintro ht ⟨cfg, hc⟩ hprep
  rw [WorkItemUpdate_post_handle w r tbl cfg hpost ht hc, hprep]
  exact ⟨rfl, rfl⟩

/-- C7 on the sample table: updating id 9 changes nothing and redirects. -/
theorem WorkItemUpdate_unknown_id_is_noop_witness :
    (WorkItemUpdate worldOk reqUpdateMissing sampleTable).table = sampleTable ∧
      ListAll (WorkItemUpdate worldOk reqUpdateMissing sampleTable).table = ListAll sampleTable ∧
      (WorkItemUpdate worldOk reqUpdateMissing sampleTable).outcome
        = .responded (.redirect "/" 301) :=
  have h := WorkItemUpdate_unknown_id_is_noop worldOk reqUpdateMissing sampleTable rfl (by decide)
  ⟨h.1, h.2.1, (h.2.2.2 rfl ⟨_, rfl⟩ rfl).1⟩

/-- An update that executes replaces the two columns in every row with the id. -/
theorem execUpdate_ok (w : World) (tbl : List WorkItem) (workdatetime timetype id : String)
    (i : Int) (t : Time) (hexec : w.exec = none) (hid : w.toInt id = some i)
    (htime : w.toTimestamp workdatetime = some t) :
    execUpdate w tbl workdatetime timetype id =
      some (tbl.map fun r =>
        if r.Id = i then { r with WorkdateTime := t, TimeType := timetype } else r) := by
  simp only [execUpdate, hexec, hid, htime]

/-- Updating the two columns does not change which rows have a given id. -/
theorem filter_id_map_update (tbl : List WorkItem) (i : Int) (t : Time) (timetype : String) :
    (tbl.map fun r =>
        if r.Id = i then { r with WorkdateTime := t, TimeType := timetype } else r).filter
        (fun x => decide (x.Id = i)) =
      (tbl.filter fun x => decide (x.Id = i)).map fun r =>
        if r.Id = i then { r with WorkdateTime := t, TimeType := timetype } else r := by
  rw [List.filter_map]
  congr 1
  apply List.filter_congr
  intro x _
  by_cases h : x.Id = i <;> simp [h]

/-- Whether the statement executes or fails, an update keeps the number of rows,
the id and the userid of every row, and every row whose id is not the given one. -/
theorem execUpdate_frame (w : World) (tbl : List WorkItem) (workdatetime timetype id : String) :
    ((execUpdate w tbl workdatetime timetype id).getD tbl).length = tbl.length ∧
    ∀ (n : Nat) (row : WorkItem), tbl[n]? = some row →
      ∃ row2, ((execUpdate w tbl workdatetime timetype id).getD tbl)[n]? = some row2 ∧
        row2.Id = row.Id ∧ row2.UserId = row.UserId ∧
        (w.toInt id ≠ some row.Id → row2 = row) := by
  unfold execUpdate
  split
  · exact ⟨rfl, fun n row hrow => ⟨row, hrow, rfl, rfl, fun _ => rfl⟩⟩
  · split
    · next t i ht hi =>
      refine ⟨by simp, fun n row hrow => ?_⟩
      by_cases hrid : row.Id = i
      · refine ⟨⟨row.Id, row.UserId, t, timetype⟩, ?_, rfl, rfl, ?_⟩
        · simp only [Option.getD_some, List.getElem?_map, hrow, Option.map_some', hrid, if_true]
        · intro hne
          exact absurd (by rw [hi, hrid]) hne
      · refine ⟨row, ?_, rfl, rfl, fun _ => rfl⟩
        simp only [Option.getD_some, List.getElem?_map, hrow, Option.map_some', hrid, if_false]
    · exact ⟨rfl, fun n row hrow => ⟨row, hrow, rfl, rfl, fun _ => rfl⟩⟩

/-- An update statement that fails, or whose id or datetime the database cannot
read, changes nothing. -/
theorem execUpdate_rejected (w : World) (tbl : List WorkItem)
    (workdatetime timetype id : String)
    (h : w.exec ≠ none ∨ w.toInt id = none ∨ w.toTimestamp workdatetime = none) :
    (execUpdate w tbl workdatetime timetype id).getD tbl = tbl := by
  unfold execUpdate
  split
  · rfl
  · next hexec =>
    split
    · next t i ht hi =>
      rcases h with h | h | h
      · exact absurd hexec h
      · rw [hi] at h
        cases h
      · rw [ht] at h
        cases h
    · rfl

/-- C6 as stated fails: a POST to `WorkItemUpdate` for id 1 whose datetime the
database cannot read, or whose `Exec` fails, is answered with the redirect but
leaves row 1 with its old datetime and type, and the following `WorkItemEdit` for
id 1 still shows them. -/
theorem WorkItemUpdate_rejected_statement_replaces_nothing :
    (WorkItemUpdate worldOk reqUpdateGarbage sampleTable).outcome
        = .responded (.redirect "/" 301) ∧
      (WorkItemUpdate worldOk reqUpdateGarbage sampleTable).execs
        = [.update "garbage" "out" "1"] ∧
      (WorkItemUpdate worldOk reqUpdateGarbage sampleTable).table = sampleTable ∧
      WorkItemEdit worldOk reqEdit (WorkItemUpdate worldOk reqUpdateGarbage sampleTable).table
        = .responded (.editPage ⟨1, 1, ⟨2024, 1, 5, 9, 0, 0, 0⟩, "in"⟩) ∧
      (WorkItemUpdate worldExecFails reqUpdate sampleTable).table = sampleTable ∧
      WorkItemEdit worldExecFails reqEdit (WorkItemUpdate worldExecFails reqUpdate sampleTable).table
        = .responded (.editPage ⟨1, 1, ⟨2024, 1, 5, 9, 0, 0, 0⟩, "in"⟩) :=
  ⟨rfl, by decide, by decide, rfl, by decide, rfl⟩

/-- C6 amended: after a POST to `WorkItemUpdate`, in every world, the table has
the same number of rows, every row keeps its id and its userid, and every row
whose id is not the submitted one is unchanged; when `Exec` fails or the database
cannot read the submitted id or datetime, the whole table is unchanged.  When the
update is executed (template loaded, pool, `Prepare` and `Exec` succeed, the
database reading the submitted id and datetime as `i` and `t`) the handler
redirects and every row with id `i` has only its datetime and type replaced, by
`t` and the submitted timetype; a following `WorkItemEdit` for that id, when a row
has it, shows the record it showed before with the new datetime and type and the
same userid. -/
theorem WorkItemUpdate_replaces_datetime_and_type_only (w : World) (r : Request)
    (tbl : List WorkItem) (hpost : r.Method = "POST") :
    (WorkItemUpdate w r tbl).table.length = tbl.length ∧
    (∀ (n : Nat) (row : WorkItem), tbl[n]? = some row →
      ∃ row2, (WorkItemUpdate w r tbl).table[n]? = some row2 ∧
        row2.Id = row.Id ∧ row2.UserId = row.UserId ∧
        (w.toInt (r.FormValue "id") ≠ some row.Id → row2 = row)) ∧
    ((w.exec ≠ none ∨ w.toInt (r.FormValue "id") = none ∨
        w.toTimestamp (r.FormValue "workdatetime") = none) →
      (WorkItemUpdate w r tbl).table = tbl) ∧
    (∀ (i : Int) (t : Time),
      w.parseFiles "../templates/edit.html" = none →
      (∃ cfg, dbConn w = .handle cfg) →
      w.prepare "UPDATE workitems SET workdatetime=$1,timetype=$2 WHERE id=$3;" = none →
      w.exec = none →
      w.toInt (r.FormValue "id") = some i →
      w.toTimestamp (r.FormValue "workdatetime") = some t →
      (WorkItemUpdate w r tbl).outcome = .responded (.redirect "/" 301) ∧
      (∀ (n : Nat) (row : WorkItem), tbl[n]? = some row → row.Id = i →
        (WorkItemUpdate w r tbl).table[n]? =
          some ⟨row.Id, row.UserId, t, r.FormValue "timetype"⟩) ∧
      (∀ q : Request, q.QueryGet "id" = r.FormValue "id" →
        w.query "SELECT * from workitems WHERE id=$1;" = none → (∀ x, w.scan x = none) →
        (∃ row ∈ tbl, row.Id = i) →
        ∃ old ∈ tbl, old.Id = i ∧
          WorkItemEdit w q tbl = .responded (.editPage old) ∧
          WorkItemEdit w q (WorkItemUpdate w r tbl).table =
            .responded (.editPage ⟨old.Id, old.UserId, t, r.FormValue "timetype"⟩))) := by
  have hframe : (WorkItemUpdate w r tbl).table.length = tbl.length ∧
      ∀ (n : Nat) (row : WorkItem), tbl[n]? = some row →
        ∃ row2, (WorkItemUpdate w r tbl).table[n]? = some row2 ∧
          row2.Id = row.Id ∧ row2.UserId = row.UserId ∧
          (w.toInt (r.FormValue "id") ≠ some row.Id → row2 = row) := by
    rcases WorkItemUpdate_table w r tbl with h | h
    · rw [h]
      exact ⟨rfl, fun n row hrow => ⟨row, hrow, rfl, rfl, fun _ => rfl⟩⟩
    · rw [h]
      exact execUpdate_frame w tbl _ _ _
  have hrejected : (w.exec ≠ none ∨ w.toInt (r.FormValue "id") = none ∨
      w.toTimestamp (r.FormValue "workdatetime") = none) →
      (WorkItemUpdate w r tbl).table = tbl := by
    intro hrej
    rcases WorkItemUpdate_table w r tbl with h | h
    · exact h
    · rw [h, execUpdate_rejected w tbl _ _ _ hrej]
  refine ⟨hframe.1, hframe.2, hrejected, ?_⟩
  rintro i t htmpl ⟨cfg, hc⟩ hprep hexec hid htime
  have hres : WorkItemUpdate w r tbl =
      ⟨.responded (.redirect "/" 301),
        tbl.map (fun x =>
          if x.Id = i then { x with WorkdateTime := t, TimeType := r.FormValue "timetype" }
          else x),
        [.update (r.FormValue "workdatetime") (r.FormValue "timetype") (r.FormValue "id")]⟩ := by
    rw [WorkItemUpdate_post_handle w r tbl cfg hpost htmpl hc, hprep,
      execUpdate_ok w tbl _ _ _ i t hexec hid htime]
    rfl
  rw [hres]
  refine ⟨rfl, ?_, ?_⟩
  · intro n row hrow heq
    simp only [List.getElem?_map, hrow, Option.map_some', heq, if_true]
  · rintro q hq hquery hscan ⟨row, hrow, hrowid⟩
    have hqid : w.toInt (q.QueryGet "id") = some i := by rw [hq, hid]
    have hne : (tbl.filter fun x => decide (x.Id = i)) ≠ [] := by
      intro hnil
      rw [List.filter_eq_nil_iff] at hnil
      exact hnil row hrow (by simpa using hrowid)
    obtain ⟨old, hold⟩ : ∃ old, (tbl.filter fun x => decide (x.Id = i)).getLast? = some old :=
      ⟨_, List.getLast?_eq_getLast _ hne⟩
    have hmem := List.mem_filter.mp (List.mem_of_getLast?_eq_some hold)
    have holdid : old.Id = i := by simpa using hmem.2
    refine ⟨old, hmem.1, holdid, ?_, ?_⟩
    · rw [WorkItemEdit_renders w q tbl i ⟨cfg, hc⟩ hquery hqid (fun x _ => hscan x) htmpl, hold]
      rfl
    · rw [WorkItemEdit_renders w q _ i ⟨cfg, hc⟩ hquery hqid (fun x _ => hscan x) htmpl,
        filter_id_map_update, List.getLast?_map, hold]
      simp only [Option.map_some', Option.getD_some, holdid, if_true]

/-- C6 amended, on the sample table: the scenario `POST /update` for id 1
rewrites row 1 alone, and `GET /edit?id=1` then shows the new datetime and type
with userid 1. -/
theorem WorkItemUpdate_replaces_datetime_and_type_only_witness :
    (WorkItemUpdate worldOk reqUpdate sampleTable).table =
        [⟨1, 1, ⟨2024, 1, 6, 9, 0, 0, 0⟩, "out"⟩,
          ⟨2, 1, ⟨2024, 1, 5, 10, 30, 0, 0⟩, "in"⟩,
          ⟨3, 2, ⟨2024, 1, 5, 8, 0, 0, 0⟩, "out"⟩] ∧
      ∃ old ∈ sampleTable, old.Id = 1 ∧
        WorkItemEdit worldOk reqEdit sampleTable = .responded (.editPage old) ∧
        WorkItemEdit worldOk reqEdit (WorkItemUpdate worldOk reqUpdate sampleTable).table =
          .responded (.editPage ⟨old.Id, old.UserId, ⟨2024, 1, 6, 9, 0, 0, 0⟩, "out"⟩) :=
  have h := (WorkItemUpdate_replaces_datetime_and_type_only worldOk reqUpdate sampleTable
    rfl).2.2.2 1 ⟨2024, 1, 6, 9, 0, 0, 0⟩ rfl ⟨_, rfl⟩ rfl rfl (by decide) (by decide)
  ⟨by decide, h.2.2 reqEdit (by decide) rfl (fun _ => rfl)
    ⟨⟨1, 1, ⟨2024, 1, 5, 9, 0, 0, 0⟩, "in"⟩, by decide, by decide⟩⟩

/-! ## C10: the user id `WorkItemCreate` passes to the insert -/

/-- Appending digits never lowers the number read so far. -/
theorem decimalFrom_ge (cs : List Char) (n : Nat) : n ≤ decimalFrom n cs := by
  induction cs generalizing n with
  | nil => exact Nat.le_refl n
  | cons c cs ih =>
    have h := ih (n * 10 + digitVal c)
    simp only [decimalFrom, List.foldl_cons] at h ⊢
    omega

/-- A digit is at most nine. -/
theorem digitVal_le (c : Char) (h : isDigit c = true) : digitVal c ≤ 9 := by
  simp only [isDigit, Bool.and_eq_true, decide_eq_true_eq] at h
  simp only [digitVal]
  omega

/-- The bound of `uint64`. -/
theorem two_pow_64 : (2 : Nat) ^ 64 = 18446744073709551616 := by norm_num

/-- The loop of `ParseUint`: a range error as soon as the leading digits leave
`uint64`, else the number read when all characters are digits, else a syntax error. -/
theorem parseUintLoop_eq (cs : List Char) (n : Nat) (hn : n < 2 ^ 64) :
    parseUintLoop cs n =
      if 2 ^ 64 ≤ decimalFrom n (cs.takeWhile isDigit) then (2 ^ 64 - 1, some .ErrRange)
      else if cs.all isDigit then (decimalFrom n cs, none)
      else (0, some .ErrSyntax) := by
  rw [two_pow_64] at hn ⊢
  induction cs generalizing n with
  | nil =>
    have h0 : decimalFrom n [] = n := rfl
    rw [List.takeWhile_nil, h0, if_neg (by omega)]
    rfl
  | cons c cs ih =>
    by_cases hc : isDigit c = true
    · have hd := digitVal_le c hc
      have hge := decimalFrom_ge (cs.takeWhile isDigit) (n * 10 + digitVal c)
      have hstep : decimalFrom n (c :: cs.takeWhile isDigit)
          = decimalFrom (n * 10 + digitVal c) (cs.takeWhile isDigit) := rfl
      have hstep2 : decimalFrom n (c :: cs) = decimalFrom (n * 10 + digitVal c) cs := rfl
      have hall : (c :: cs).all isDigit = cs.all isDigit := by
        rw [List.all_cons, hc, Bool.true_and]
      rw [List.takeWhile_cons_of_pos hc, hstep, hstep2, hall]
      simp only [parseUintLoop, hc, if_true, intSize, two_pow_64]
      by_cases hcut : n ≥ (18446744073709551616 - 1) / 10 + 1
      · rw [if_pos hcut, if_pos (by omega)]
      · rw [if_neg hcut]
        by_cases hov : 18446744073709551616 ≤ n * 10 + digitVal c
        · rw [if_pos (Or.inl (by omega)), if_pos (by omega)]
        · have hmod : (n * 10 + digitVal c) % 18446744073709551616 = n * 10 + digitVal c :=
            Nat.mod_eq_of_lt (by omega)
          rw [hmod, if_neg (by omega)]
          exact ih (n * 10 + digitVal c) (by omega)
    · have h0 : decimalFrom n [] = n := rfl
      have hall : (c :: cs).all isDigit = false := by
        rw [List.all_cons, Bool.not_eq_true _ |>.mp hc, Bool.false_and]
      rw [List.takeWhile_cons_of_neg hc, h0, if_neg (by omega), hall]
      simp only [parseUintLoop, hc]
      rfl

/-- The function `ParseUint` in terms of the digits it reads. -/
theorem ParseUint_eq (body : List Char) :
    ParseUint body =
      if 2 ^ 64 ≤ decimalFrom 0 (body.takeWhile isDigit) then (2 ^ 64 - 1, some .ErrRange)
      else if (!body.isEmpty && body.all isDigit) = true then (decimalFrom 0 body, none)
      else (0, some .ErrSyntax) := by
  cases body with
  | nil => rfl
  | cons c cs =>
    have h : ParseUint (c :: cs) = parseUintLoop (c :: cs) 0 := by
      simp only [ParseUint, reduceCtorEq, if_false]
    rw [h, parseUintLoop_eq (c :: cs) 0 (by norm_num)]
    simp only [List.isEmpty_cons, Bool.not_false, Bool.true_and]

/-- The function `Atoi` in terms of `ParseUint` on the text after the sign. -/
theorem Atoi_eq (s : String) :
    Atoi s =
      match ParseUint (unsignedPart s.toList) with
      | (_, some .ErrSyntax) => (0, some .ErrSyntax)
      | (un, _) =>
        if ¬ hasMinus s.toList = true ∧ un ≥ 2 ^ 63 then (((2 ^ 63 - 1 : Nat) : Int), some .ErrRange)
        else if hasMinus s.toList = true ∧ un > 2 ^ 63 then (-((2 ^ 63 : Nat) : Int), some .ErrRange)
        else (if hasMinus s.toList = true then -(un : Int) else (un : Int), none) := by
  unfold Atoi
  cases s.toList with
  | nil => rfl
  | cons c rest =>
    simp only [ParseInt, unsignedPart, hasMinus, intSize, decide_eq_true_eq]

/-- On a decimal integer `Atoi` returns it when it fits `int` and otherwise the
nearest bound of `int` with a range error. -/
theorem Atoi_decimal (s : String) (hs : isDecimalInteger s = true) :
    Atoi s =
      if 2 ^ 63 ≤ decimalInteger s then (2 ^ 63 - 1, some .ErrRange)
      else if decimalInteger s < -2 ^ 63 then (-2 ^ 63, some .ErrRange)
      else (decimalInteger s, none) := by
  have htw : (unsignedPart s.toList).takeWhile isDigit = unsignedPart s.toList := by
    rw [List.takeWhile_eq_self_iff]
    simp only [isDecimalInteger, Bool.and_eq_true, List.all_eq_true] at hs
    exact hs.2
  rw [Atoi_eq, ParseUint_eq, htw]
  have hs2 : (!(unsignedPart s.toList).isEmpty && (unsignedPart s.toList).all isDigit) = true := hs
  simp only [hs2, if_true, decimalInteger]
  generalize decimalFrom 0 (unsignedPart s.toList) = v
  have e63 : (2 : Nat) ^ 63 = 9223372036854775808 := by norm_num
  have e63i : (2 : Int) ^ 63 = 9223372036854775808 := by norm_num
  rw [two_pow_64, e63, e63i]
  cases hasMinus s.toList
  · simp only [Bool.false_eq_true, not_false_eq_true, true_and, false_and, if_false]
    by_cases h64 : 18446744073709551616 ≤ v
    · rw [if_pos h64, if_pos (by omega)]
      simp only [ge_iff_le, Nat.reduceLeDiff, if_true]
      norm_num
    · rw [if_neg h64]
      simp only []
      by_cases h63 : v ≥ 9223372036854775808
      · rw [if_pos h63, if_pos (by omega)]
        norm_num
      · rw [if_neg h63, if_neg (by omega), if_neg (by omega)]
  · simp only [not_true_eq_false, true_and, false_and, if_false, if_true]
    by_cases h64 : 18446744073709551616 ≤ v
    · rw [if_pos h64, if_neg (by omega), if_pos (by omega)]
      simp only [gt_iff_lt, Nat.reduceLeDiff, Nat.reduceLT, Nat.reduceSub, if_true]
      norm_num
    · rw [if_neg h64]
      simp only []
      by_cases h63 : v > 9223372036854775808
      · rw [if_pos h63, if_neg (by omega), if_pos (by omega)]
        norm_num
      · rw [if_neg h63, if_neg (by omega), if_neg (by omega)]

/-- On a text that is no decimal integer `Atoi` returns 0 with a syntax error,
unless its leading digits already left `uint64`, which is a range error. -/
theorem Atoi_not_decimal (s : String) (hs : isDecimalInteger s = false) :
    Atoi s =
      if 2 ^ 64 ≤ decimalFrom 0 (leadingDigits s) then
        (if hasMinus s.toList = true then -2 ^ 63 else 2 ^ 63 - 1, some .ErrRange)
      else (0, some .ErrSyntax) := by
  have hs2 : ¬ (!(unsignedPart s.toList).isEmpty && (unsignedPart s.toList).all isDigit) = true := by
    intro h
    have h2 : isDecimalInteger s = true := h
    rw [hs] at h2
    cases h2
  have e63 : (2 : Nat) ^ 63 = 9223372036854775808 := by norm_num
  have e63i : (2 : Int) ^ 63 = 9223372036854775808 := by norm_num
  rw [Atoi_eq, ParseUint_eq, if_neg hs2, leadingDigits, two_pow_64, e63, e63i]
  by_cases h64 : 18446744073709551616 ≤ decimalFrom 0 ((unsignedPart s.toList).takeWhile isDigit)
  · rw [if_pos h64, if_pos h64]
    cases hasMinus s.toList
    · simp only [Bool.false_eq_true, not_false_eq_true, true_and, false_and, if_false]
      norm_num
    · simp only [not_true_eq_false, true_and, false_and, if_false, if_true]
      norm_num
  · rw [if_neg h64, if_neg h64]

/-- An insert that executes appends one row with the given values. -/
theorem execInsert_ok (w : World) (tbl : List WorkItem) (iuser : Int)
    (workdatetime timetype : String) (t : Time) (hexec : w.exec = none)
    (hfits : w.intFits iuser = true) (htime : w.toTimestamp workdatetime = some t) :
    execInsert w tbl iuser workdatetime timetype =
      some (tbl ++ [⟨w.freshId tbl, iuser, t, timetype⟩]) := by
  simp only [execInsert, hexec, hfits, htime, if_true]

/-- C10 as stated fails: for the userid `9223372036854775808`, which is out of
the range of `int`, the insert is passed `9223372036854775807`, not 0; a database
that accepts the value stores a row with that userid and one with a 32-bit column
stores no row. -/
theorem WorkItemCreate_out_of_range_userid_not_zero :
    (WorkItemCreate worldOk reqCreateOverflow []).execs =
        [.insert 9223372036854775807 "2024-01-05T09:00:00" "in"] ∧
      (WorkItemCreate worldOk reqCreateOverflow []).table =
        [⟨1, 9223372036854775807, ⟨2024, 1, 5, 9, 0, 0, 0⟩, "in"⟩] ∧
      (WorkItemCreate worldInt4 reqCreateOverflow []).execs =
        [.insert 9223372036854775807 "2024-01-05T09:00:00" "in"] ∧
      (WorkItemCreate worldInt4 reqCreateOverflow []).table = [] := by
  decide

/-- C10 amended: a POST to `WorkItemCreate` with a pool and a prepared statement
redirects and hands `Exec` one insert whose userid is the value of `strconv.Atoi`
with its error dropped and whose workdatetime and timetype are the submitted
texts; when the statement executes the table gains one row with exactly that
userid.  The value is the integer itself for a decimal integer within the range of
`int`, the largest or smallest `int` for a decimal integer beyond it, and 0 for a
text that is no decimal integer and whose leading digits stay within `uint64`. -/
theorem WorkItemCreate_passes_Atoi_value (w : World) (r : Request) (tbl : List WorkItem)
    (hpost : r.Method = "POST")
    (hconn : ∃ cfg, dbConn w = .handle cfg)
    (hprep :
      w.prepare "INSERT INTO workitems(userid, workdatetime, timetype) VALUES($1,$2,$3);" = none) :
    (WorkItemCreate w r tbl).outcome = .responded (.redirect "/" 301) ∧
    (WorkItemCreate w r tbl).execs =
      [.insert (Atoi (r.FormValue "userid")).1 (r.FormValue "workdatetime")
        (r.FormValue "timetype")] ∧
    (∀ t, w.exec = none → w.intFits (Atoi (r.FormValue "userid")).1 = true →
      w.toTimestamp (r.FormValue "workdatetime") = some t →
      (WorkItemCreate w r tbl).table =
        tbl ++ [⟨w.freshId tbl, (Atoi (r.FormValue "userid")).1, t, r.FormValue "timetype"⟩]) ∧
    (isDecimalInteger (r.FormValue "userid") = true →
      -2 ^ 63 ≤ decimalInteger (r.FormValue "userid") →
      decimalInteger (r.FormValue "userid") < 2 ^ 63 →
      (Atoi (r.FormValue "userid")).1 = decimalInteger (r.FormValue "userid")) ∧
    (isDecimalInteger (r.FormValue "userid") = true →
      2 ^ 63 ≤ decimalInteger (r.FormValue "userid") →
      (Atoi (r.FormValue "userid")).1 = 2 ^ 63 - 1) ∧
    (isDecimalInteger (r.FormValue "userid") = true →
      decimalInteger (r.FormValue "userid") < -2 ^ 63 →
      (Atoi (r.FormValue "userid")).1 = -2 ^ 63) ∧
    (isDecimalInteger (r.FormValue "userid") = false →
      decimalFrom 0 (leadingDigits (r.FormValue "userid")) < 2 ^ 64 →
      (Atoi (r.FormValue "userid")).1 = 0) := by
  obtain ⟨cfg, hc⟩ := hconn
  rw [WorkItemCreate_post_handle w r tbl cfg hpost hc, hprep]
  refine ⟨rfl, rfl, ?_, ?_, ?_, ?_, ?_⟩
  · intro t hexec hfits htime
    simp only [execInsert_ok w tbl _ _ _ t hexec hfits htime, Option.getD_some]
  · intro hs hlo hhi
    rw [Atoi_decimal _ hs, if_neg (by omega), if_neg (by omega)]
  · intro hs hhi
    rw [Atoi_decimal _ hs, if_pos hhi]
  · intro hs hlo
    rw [Atoi_decimal _ hs, if_neg (by omega), if_pos hlo]
  · intro hs hlead
    rw [Atoi_not_decimal _ hs, if_neg (by omega)]

/-- C10 amended, at the scenario `userid=7` and at a request without any form
value: userid 7 is stored as 7, and the empty userid is passed as 0. -/
theorem WorkItemCreate_passes_Atoi_value_witness :
    (WorkItemCreate worldOk reqCreate []).table = [⟨1, 7, ⟨2024, 1, 5, 9, 0, 0, 0⟩, "in"⟩] ∧
      (WorkItemCreate worldOk (mkRequest "POST" [] []) []).execs = [.insert 0 "" ""] := by
  have h1 := WorkItemCreate_passes_Atoi_value worldOk reqCreate [] rfl ⟨_, rfl⟩ rfl
  have h2 := WorkItemCreate_passes_Atoi_value worldOk (mkRequest "POST" [] []) [] rfl ⟨_, rfl⟩ rfl
  refine ⟨?_, ?_⟩
  · rw [h1.2.2.1 ⟨2024, 1, 5, 9, 0, 0, 0⟩ rfl rfl (by decide)]
    decide
  · rw [h2.2.1, h2.2.2.2.2.2.2 (by decide) (by decide)]
    decide

end Attendance
